import Mathlib

/-!
Shallow embedding of the INA226 energy-monitor service (src/src/main.go).

Modelling conventions:
- Go `float64` arithmetic is modelled exactly over `ℚ`; the spec's
  conversion laws are exact rational identities.
- Machine integers are modelled as `Nat`/`Int`, with explicit reductions
  modulo 2^8 / 2^16 wherever the source performs a narrowing conversion
  (`byte(...)`, `int16(...)`).
- The I2C bus is modelled as an oracle assigning a response to the n-th
  transaction issued on it, together with a running log of the issued
  transactions, so claims about transaction counts and ordering become
  statements about the log.
- Go's `(value, error)` returns are modelled with `Except`; a `nil`
  pointer result is the `Except.error` case.
- The polling loop of `run` is modelled one iteration at a time as a
  `TickOutcome`, including the two nil-pointer dereferences the loop can
  hit (a failed sample's reading, and a driver whose construction failed),
  which in Go are runtime panics.
-/

namespace Energy

/-- Device address constant `ina226Address = 0x40` (src/src/main.go line 20). -/
def ina226Address : Nat := 0x40

/-- Register address `configReg = 0x00` (src/src/main.go line 23). -/
def configReg : Nat := 0x00

/-- Register address `busVoltReg = 0x02` (src/src/main.go line 25). -/
def busVoltReg : Nat := 0x02

/-- Register address `powerReg = 0x03` (src/src/main.go line 26). -/
def powerReg : Nat := 0x03

/-- Register address `currentReg = 0x04` (src/src/main.go line 27). -/
def currentReg : Nat := 0x04

/-- Register address `calibrationReg = 0x05` (src/src/main.go line 28). -/
def calibrationReg : Nat := 0x05

/-- Default configuration word `configValue = 0x4127` (src/src/main.go line 31). -/
def configValue : Nat := 0x4127

/-- Conversion factor `busVoltageConversion = 1.25 / 1000.0` (1.25 mV/bit),
src/src/main.go line 34, over exact rationals. -/
def busVoltageConversion : ℚ := 1.25 / 1000

/-- Conversion factor `currentLSB = 0.001` (1 mA/bit), src/src/main.go line 35. -/
def currentLSB : ℚ := 0.001

/-- Conversion factor `powerLSB = 25.0 * 0.001` (25 mW/bit), src/src/main.go line 36. -/
def powerLSB : ℚ := 25 * 0.001

/-- Response of the bus to a single transaction: either the bytes the device
delivers into the read buffer, or a transport error (identified by a code). -/
inductive TxResult where
  | ok (bytes : List Nat)
  | err (e : Nat)

/-- One issued transaction, as recorded in the log: the bytes written and the
number of bytes requested for reading. -/
structure TxReq where
  writeBytes : List Nat
  readLen : Nat
deriving DecidableEq, Repr

/-- A bus behavior: the response it gives to the n-th transaction issued on it. -/
def Bus : Type := Nat → TxResult

/-- Observable bus-side state threaded through the driver: how many
transactions have been issued so far, and the log of issued transactions. -/
structure BusState where
  idx : Nat
  log : List TxReq
deriving DecidableEq, Repr

/-- The bus state before any transaction has been issued. -/
def startState : BusState := ⟨0, []⟩

/-- Embedding of `ina.dev.Tx(w, r)`: issues one transaction. On success the
read buffer (allocated with length `readLen` and zero-initialized, as by Go's
`make`) is filled from the delivered bytes; each buffer cell holds a byte,
hence the reduction modulo 256. On failure the transport error is returned.
Either way the transaction is recorded in the log. -/
def tx (bus : Bus) (w : List Nat) (readLen : Nat) (s : BusState) :
    Except Nat (List Nat) × BusState :=
  let s1 : BusState := ⟨s.idx + 1, s.log ++ [⟨w, readLen⟩]⟩
  match bus s.idx with
  | .ok bytes => (.ok ((bytes.map (fun b => b % 256) ++ List.replicate readLen 0).take readLen), s1)
  | .err e => (.error e, s1)

/-- Embedding of `writeRegister` (src/src/main.go lines 71-75): serializes
`value` big-endian into the 3-byte payload `[reg, byte(value >> 8),
byte(value & 0xFF)]` and issues a single write transaction. -/
def writeRegister (bus : Bus) (reg value : Nat) (s : BusState) :
    Except Nat Unit × BusState :=
  let data : List Nat := [reg, (value >>> 8) % 256, value &&& 0xFF]
  match tx bus data 0 s with
  | (.ok _, s1) => (.ok (), s1)
  | (.error e, s1) => (.error e, s1)

/-- Embedding of `readRegister` (src/src/main.go lines 77-91): first a
write-only transaction carrying the single address byte; on its failure the
call returns early with that error. Otherwise a read-only transaction fetching
2 bytes; on its failure that error is returned. Otherwise the two buffer bytes
are reassembled big-endian as `uint16(data[0])<<8 | uint16(data[1])`. -/
def readRegister (bus : Bus) (reg : Nat) (s : BusState) :
    Except Nat Nat × BusState :=
  match tx bus [reg] 0 s with
  | (.error e, s1) => (.error e, s1)
  | (.ok _, s1) =>
    match tx bus [] 2 s1 with
    | (.error e, s2) => (.error e, s2)
    | (.ok data, s2) => (.ok ((data.getD 0 0) <<< 8 ||| data.getD 1 0), s2)

/-- Embedding of Go's `int16(raw)` on a `uint16` argument: reinterpret the
16-bit pattern as a two's-complement signed value. -/
def int16OfUInt16 (v : Nat) : Int :=
  if v % 65536 < 0x8000 then Int.ofNat (v % 65536) else Int.ofNat (v % 65536) - 65536

/-- Pure conversion step of `ReadBusVoltage` (src/src/main.go line 98):
`float64(raw) * busVoltageConversion`. -/
def busVoltageOfRaw (raw : Nat) : ℚ := (raw : ℚ) * busVoltageConversion

/-- Pure conversion step of `ReadCurrent` (src/src/main.go lines 107-108):
`value := int16(raw); float64(value) * currentLSB`. -/
def currentOfRaw (raw : Nat) : ℚ := (int16OfUInt16 raw : ℚ) * currentLSB

/-- Pure conversion step of `ReadPower` (src/src/main.go line 116):
`float64(raw) * powerLSB`. -/
def powerOfRaw (raw : Nat) : ℚ := (raw : ℚ) * powerLSB

/-- Embedding of `ReadBusVoltage` (src/src/main.go lines 93-99). -/
def ReadBusVoltage (bus : Bus) (s : BusState) : Except Nat ℚ × BusState :=
  match readRegister bus busVoltReg s with
  | (.error e, s1) => (.error e, s1)
  | (.ok raw, s1) => (.ok (busVoltageOfRaw raw), s1)

/-- Embedding of `ReadCurrent` (src/src/main.go lines 101-109). -/
def ReadCurrent (bus : Bus) (s : BusState) : Except Nat ℚ × BusState :=
  match readRegister bus currentReg s with
  | (.error e, s1) => (.error e, s1)
  | (.ok raw, s1) => (.ok (currentOfRaw raw), s1)

/-- Embedding of `ReadPower` (src/src/main.go lines 111-117). -/
def ReadPower (bus : Bus) (s : BusState) : Except Nat ℚ × BusState :=
  match readRegister bus powerReg s with
  | (.error e, s1) => (.error e, s1)
  | (.ok raw, s1) => (.ok (powerOfRaw raw), s1)

/-- The three derived quantities read by `ReadSensorData`, used to record
which of them a wrapped error came from. -/
inductive Quantity where
  | busVoltage
  | current
  | power
deriving DecidableEq, Repr

/-- The wrapped error produced by `ReadSensorData`: Go's
`fmt.Errorf("failed to read <quantity>: %v", err)` is modelled as the pair
of the failed quantity and the underlying bus error. -/
inductive ReadError where
  | failed (q : Quantity) (e : Nat)
deriving DecidableEq, Repr

/-- Embedding of the `CurrentSensorOutput` struct (src/src/main.go lines 119-123). -/
structure CurrentSensorOutput where
  SupplyVoltage : ℚ
  CurrentAmps : ℚ
  PowerWatts : ℚ
deriving DecidableEq, Repr

/-- Embedding of `ReadSensorData` (src/src/main.go lines 125-149): reads bus
voltage, then current, then power, short-circuiting on the first failure,
which is wrapped with the failed quantity; a `nil` pointer result is the
`Except.error` case, so no partial reading exists. -/
def ReadSensorData (bus : Bus) (s : BusState) :
    Except ReadError CurrentSensorOutput × BusState :=
  match ReadBusVoltage bus s with
  | (.error e, s1) => (.error (.failed .busVoltage e), s1)
  | (.ok voltage, s1) =>
    match ReadCurrent bus s1 with
    | (.error e, s2) => (.error (.failed .current e), s2)
    | (.ok current, s2) =>
      match ReadPower bus s2 with
      | (.error e, s3) => (.error (.failed .power e), s3)
      | (.ok power, s3) => (.ok ⟨voltage, current, power⟩, s3)

/-- Driver construction error: Go's
`fmt.Errorf("failed to initialize INA226: %v", err)` wrapping the failed
register write's bus error. -/
inductive DriverError where
  | initError (e : Nat)
deriving DecidableEq, Repr

/-- Embedding of the `INA226` struct: the device bound to its bus address. -/
structure INA226 where
  addr : Nat
deriving DecidableEq, Repr

/-- Embedding of the `initialize` method (src/src/main.go lines 56-69): write
the configuration register with `configValue`, then the calibration register
with `2560`, short-circuiting on the first failure. -/
def initDevice (bus : Bus) (s : BusState) : Except Nat Unit × BusState :=
  match writeRegister bus configReg configValue s with
  | (.error e, s1) => (.error e, s1)
  | (.ok _, s1) => writeRegister bus calibrationReg 2560 s1

/-- Embedding of `NewINA226` (src/src/main.go lines 43-54): construction
succeeds with a driver value only if both initialization writes succeed;
otherwise it fails with the wrapped initialization error and no driver. -/
def NewINA226 (bus : Bus) (s : BusState) : Except DriverError INA226 × BusState :=
  match initDevice bus s with
  | (.error e, s1) => (.error (.initError e), s1)
  | (.ok _, s1) => (.ok ⟨ina226Address⟩, s1)

/-- Embedding of `sleepSeconds := 1.0 / updateFrequency` (src/src/main.go
line 190), over exact rationals. -/
def sleepSeconds (f : ℚ) : ℚ := 1 / f

/-- Embedding of `time.Duration(sleepSeconds * float64(time.Second))`
(src/src/main.go line 191): the sleep duration in nanoseconds
(`time.Second` is 10^9 ns); Go's float64-to-int64 conversion truncates
toward zero. -/
def durationNs (secs : ℚ) : Int :=
  if 0 ≤ secs then ⌊secs * 1000000000⌋ else ⌈secs * 1000000000⌉

/-- Result of one iteration of the polling loop of `run` (src/src/main.go
lines 184-223).
- `configAbort e`: the updates-per-second fetch failed (lines 186-189) and
  `run` returns the wrapped error before sleeping or issuing any bus
  transaction.
- `nilDriverPanic sleep`: the loop was entered with a failed (nil) driver —
  a construction error is only logged at lines 179-182 — and after sleeping,
  the sample dereferences the nil driver inside `ReadSensorData`: a runtime
  panic.
- `sampleFailPanic sleep e s`: `ReadSensorData` failed with `e` leaving bus
  state `s`; the code logs the error (line 197) but then unconditionally
  reads `data.CurrentAmps` from the nil reading at line 216: a runtime panic.
- `next sleep out s`: the sample succeeded with reading `out` and bus state
  `s`; the reading is logged and the loop proceeds to the next iteration.
In each non-abort case `sleep` records the duration in seconds of the
`time.Sleep` the iteration performed before sampling. -/
inductive TickOutcome where
  | configAbort (e : Nat)
  | nilDriverPanic (sleep : ℚ)
  | sampleFailPanic (sleep : ℚ) (e : ReadError) (s : BusState)
  | next (sleep : ℚ) (out : CurrentSensorOutput) (s : BusState)
deriving DecidableEq, Repr

/-- The sleep duration performed by a loop iteration, if it slept at all. -/
def TickOutcome.sleepDur : TickOutcome → Option ℚ
  | .configAbort _ => none
  | .nilDriverPanic sl => some sl
  | .sampleFailPanic sl _ _ => some sl
  | .next sl _ _ => some sl

/-- One iteration of the polling loop of `run` (src/src/main.go lines
184-223), given the result `cfg` of this iteration's
`configuration.GetFloat("updates-per-second")` call, the driver value `drv`
the loop was entered with (`none` is a nil driver), and the bus. -/
def tick (cfg : Except Nat ℚ) (drv : Option INA226) (bus : Bus) (s : BusState) :
    TickOutcome :=
  match cfg with
  | .error e => .configAbort e
  | .ok f =>
    match drv with
    | none => .nilDriverPanic (sleepSeconds f)
    | some _ =>
      match ReadSensorData bus s with
      | (.error e, s1) => .sampleFailPanic (sleepSeconds f) e s1
      | (.ok out, s1) => .next (sleepSeconds f) out s1

/-- The driver value `run` enters its polling loop with: a `NewINA226`
failure is only logged (src/src/main.go lines 179-182, no return), so on
construction failure the loop still starts, with a nil driver. -/
def runDriver (bus : Bus) (s : BusState) : Option INA226 × BusState :=
  match NewINA226 bus s with
  | (.ok ina, s1) => (some ina, s1)
  | (.error _, s1) => (none, s1)

/-- Bus state at the start of the n-th iteration of the polling loop, or
`none` if the loop stopped (returned or panicked) before reaching it. -/
def loopState (cfg : Nat → Except Nat ℚ) (drv : Option INA226) (bus : Bus)
    (s : BusState) : Nat → Option BusState
  | 0 => some s
  | n + 1 =>
    match loopState cfg drv bus s n with
    | none => none
    | some sn =>
      match tick (cfg n) drv bus sn with
      | .next _ _ s1 => some s1
      | _ => none

/-- Outcome of the n-th iteration of the polling loop, if it is reached. -/
def tickAt (cfg : Nat → Except Nat ℚ) (drv : Option INA226) (bus : Bus)
    (s : BusState) (n : Nat) : Option TickOutcome :=
  (loopState cfg drv bus s n).map fun sn => tick (cfg n) drv bus sn

/-- Decidable equality for `Except`, used to evaluate the embedding on
concrete buses. -/
instance {ε α : Type} [DecidableEq ε] [DecidableEq α] : DecidableEq (Except ε α)
  | .ok a, .ok b =>
    if h : a = b then .isTrue (by rw [h]) else .isFalse (by simp [h])
  | .ok _, .error _ => .isFalse (by simp)
  | .error _, .ok _ => .isFalse (by simp)
  | .error e, .error f =>
    if h : e = f then .isTrue (by rw [h]) else .isFalse (by simp [h])

/-- A bus on which every transaction succeeds and delivers no bytes. -/
def okBus : Bus := fun _ => .ok []

/-- A bus on which every transaction succeeds and delivers the two bytes
`b0`, `b1`. -/
def twoByteBus (b0 b1 : Nat) : Bus := fun _ => .ok [b0, b1]

/-- A bus on which every transaction fails with transport error code 5. -/
def failBus : Bus := fun _ => .err 5

/-- A bus on which the two initialization writes succeed and every later
transaction fails with transport error code 7. -/
def initOkThenFailBus : Bus := fun n => if n < 2 then .ok [] else .err 7

/-- The transaction log produced by a successful initialization: the
configuration write `[0x00, 0x41, 0x27]` followed by the calibration write
`[0x05, 0x0A, 0x00]` (2560 = 0x0A00). -/
def initLog : List TxReq :=
  [⟨[configReg, 0x41, 0x27], 0⟩, ⟨[calibrationReg, 0x0A, 0x00], 0⟩]

/-- A configuration source returning 4 updates/s at the first fetch and
2 updates/s at every later fetch. -/
def retunedCfg : Nat → Except Nat ℚ := fun n => .ok (if n = 0 then 4 else 2)

/-- C1: for every 16-bit raw register value, `ReadCurrent`'s conversion
reinterprets the value as a 16-bit two's-complement signed integer and scales
by 1 mA/bit: `v < 0x8000` gives `v * 0.001` amps and `v >= 0x8000` gives
`(v - 65536) * 0.001` amps. -/
theorem current_conversion_twos_complement (v : Nat) (hv : v < 65536) :
    (v < 0x8000 → currentOfRaw v = (v : ℚ) * 0.001) ∧
    (0x8000 ≤ v → currentOfRaw v = ((v : ℚ) - 65536) * 0.001) := by
  have hm : v % 65536 = v := Nat.mod_eq_of_lt hv
  unfold currentOfRaw int16OfUInt16 currentLSB
  rw [hm]
  constructor
  · intro h
    rw [if_pos h]
    push_cast [Int.ofNat_eq_natCast]
    ring
  · intro h
    rw [if_neg (by omega)]
    push_cast [Int.ofNat_eq_natCast]
    ring

/-- Witness for C1 at the concrete raw value `0xFFFF`, which converts to
`-0.001` amps. -/
theorem current_conversion_twos_complement_witness :
    currentOfRaw 0xFFFF = ((0xFFFF : ℚ) - 65536) * 0.001 ∧
    currentOfRaw 0xFFFF = -0.001 := by
  refine ⟨(current_conversion_twos_complement 0xFFFF (by norm_num)).2 (by norm_num), ?_⟩
  norm_num [currentOfRaw, int16OfUInt16, currentLSB]

/-- C8: for every raw register value, the bus-voltage conversion returns
`v * 0.00125` volts (1.25 mV/bit) and the power conversion returns
`v * 0.025` watts (25 times the 1 mA/bit current LSB); both are linear in the
unsigned raw value, with no sign reinterpretation. -/
theorem busvoltage_power_conversions (v : Nat) :
    busVoltageOfRaw v = (v : ℚ) * 0.00125 ∧ powerOfRaw v = (v : ℚ) * 0.025 := by
  constructor
  · unfold busVoltageOfRaw busVoltageConversion
    norm_num
  · unfold powerOfRaw powerLSB
    norm_num

/-- C6: for every register address and 16-bit value, `writeRegister`
serializes the value big-endian and issues exactly one transaction whose
payload is the 3 bytes `[addr, v >>> 8, v &&& 0xFF]`. -/
theorem writeRegister_big_endian_payload (bus : Bus) (s : BusState) (addr v : Nat)
    (_ha : addr < 256) (hv : v < 65536) :
    (writeRegister bus addr v s).2.log = s.log ++ [⟨[addr, v >>> 8, v &&& 0xFF], 0⟩] ∧
    (writeRegister bus addr v s).2.idx = s.idx + 1 := by
  have h8 : (v >>> 8) % 256 = v >>> 8 := by
    rw [Nat.shiftRight_eq_div_pow]
    omega
  unfold writeRegister tx
  rcases hb : bus s.idx with b | e <;> simp [hb, h8]

/-- Witness for C6 at `(addr, value) = (0x00, 0x4127)`: the payload is
`[0x00, 0x41, 0x27]`. -/
theorem writeRegister_big_endian_payload_witness :
    (writeRegister okBus 0x00 0x4127 startState).2.log = [⟨[0x00, 0x41, 0x27], 0⟩] := by
  have h :=
    (writeRegister_big_endian_payload okBus startState 0x00 0x4127 (by norm_num) (by norm_num)).1
  rw [h]
  decide

/-- C7 counterexample: on a bus whose first transaction fails, `readRegister`
issues exactly one transaction (the address-select write), not two, before
failing with that bus error. -/
theorem readRegister_single_tx_on_select_failure :
    (readRegister failBus busVoltReg startState).2.log = [⟨[busVoltReg], 0⟩] ∧
    (readRegister failBus busVoltReg startState).1 = .error 5 := by
  constructor <;> decide

/-- C7 (amended): `readRegister` first issues a write-only transaction
carrying the single address byte; if the bus fails it, the call fails with
that error having issued only that one transaction; otherwise it issues a
read-only transaction fetching 2 bytes; if the bus fails it, the call fails
with that error; otherwise the fetched bytes are reassembled big-endian as
`b0 <<< 8 ||| b1` — in the latter two cases exactly the two transactions were
issued, in address-select-before-read order. -/
theorem readRegister_protocol (bus : Bus) (s : BusState) (addr : Nat) :
    (∀ e, bus s.idx = .err e →
      readRegister bus addr s = (.error e, ⟨s.idx + 1, s.log ++ [⟨[addr], 0⟩]⟩)) ∧
    (∀ w e, bus s.idx = .ok w → bus (s.idx + 1) = .err e →
      readRegister bus addr s = (.error e, ⟨s.idx + 2, s.log ++ [⟨[addr], 0⟩, ⟨[], 2⟩]⟩)) ∧
    (∀ w b0 b1 rest, bus s.idx = .ok w → bus (s.idx + 1) = .ok (b0 :: b1 :: rest) →
      b0 < 256 → b1 < 256 →
      readRegister bus addr s =
        (.ok (b0 <<< 8 ||| b1), ⟨s.idx + 2, s.log ++ [⟨[addr], 0⟩, ⟨[], 2⟩]⟩)) := by
  refine ⟨?_, ?_, ?_⟩
  · intro e h
    simp [readRegister, tx, h]
  · intro w e h1 h2
    simp [readRegister, tx, h1, h2]
  · intro w b0 b1 rest h1 h2 hb0 hb1
    simp [readRegister, tx, h1, h2, Nat.mod_eq_of_lt hb0, Nat.mod_eq_of_lt hb1]

/-- Witness for C7 at fetched bytes `[0x01, 0x2C]`: the call issues the two
transactions in order and reassembles the raw value `0x012C`. -/
theorem readRegister_protocol_witness :
    readRegister (twoByteBus 0x01 0x2C) busVoltReg startState =
      (.ok (0x01 <<< 8 ||| 0x2C), ⟨2, [⟨[busVoltReg], 0⟩, ⟨[], 2⟩]⟩) ∧
    (0x01 <<< 8 ||| 0x2C : Nat) = 0x012C := by
  refine ⟨?_, by decide⟩
  have h := (readRegister_protocol (twoByteBus 0x01 0x2C) startState busVoltReg).2.2
    [0x01, 0x2C] 0x01 0x2C [] rfl rfl (by norm_num) (by norm_num)
  simpa [startState] using h

/-- C2: `ReadSensorData` reads bus voltage, then current, then power,
threading the bus state through in that order; the first failing read
short-circuits the call, whose error is that read's bus error wrapped with
the quantity that failed, and no reading is produced; if all three reads
succeed, the reading holds exactly the three produced values. -/
theorem ReadSensorData_all_or_nothing (bus : Bus) (s : BusState) :
    (∀ e s1, ReadBusVoltage bus s = (.error e, s1) →
      ReadSensorData bus s = (.error (.failed .busVoltage e), s1)) ∧
    (∀ v s1 e s2, ReadBusVoltage bus s = (.ok v, s1) →
      ReadCurrent bus s1 = (.error e, s2) →
      ReadSensorData bus s = (.error (.failed .current e), s2)) ∧
    (∀ v s1 c s2 e s3, ReadBusVoltage bus s = (.ok v, s1) →
      ReadCurrent bus s1 = (.ok c, s2) → ReadPower bus s2 = (.error e, s3) →
      ReadSensorData bus s = (.error (.failed .power e), s3)) ∧
    (∀ v s1 c s2 p s3, ReadBusVoltage bus s = (.ok v, s1) →
      ReadCurrent bus s1 = (.ok c, s2) → ReadPower bus s2 = (.ok p, s3) →
      ReadSensorData bus s = (.ok ⟨v, c, p⟩, s3)) := by
  refine ⟨?_, ?_, ?_, ?_⟩ <;> intros <;> simp_all [ReadSensorData]

/-- Witness for C2 on a bus that always delivers `[0x01, 0x2C]`: all three
reads succeed, and the reading holds exactly the three converted values, the
registers having been read in the order bus voltage, current, power. -/
theorem ReadSensorData_all_or_nothing_witness :
    ReadSensorData (twoByteBus 0x01 0x2C) startState =
      (.ok ⟨busVoltageOfRaw 0x012C, currentOfRaw 0x012C, powerOfRaw 0x012C⟩,
        ⟨6, [⟨[busVoltReg], 0⟩, ⟨[], 2⟩, ⟨[currentReg], 0⟩, ⟨[], 2⟩,
             ⟨[powerReg], 0⟩, ⟨[], 2⟩]⟩) := by
  have h := (ReadSensorData_all_or_nothing (twoByteBus 0x01 0x2C) startState).2.2.2
    (busVoltageOfRaw 0x012C) ⟨2, [⟨[busVoltReg], 0⟩, ⟨[], 2⟩]⟩
    (currentOfRaw 0x012C) ⟨4, [⟨[busVoltReg], 0⟩, ⟨[], 2⟩, ⟨[currentReg], 0⟩, ⟨[], 2⟩]⟩
    (powerOfRaw 0x012C) ⟨6, [⟨[busVoltReg], 0⟩, ⟨[], 2⟩, ⟨[currentReg], 0⟩, ⟨[], 2⟩,
      ⟨[powerReg], 0⟩, ⟨[], 2⟩]⟩ rfl rfl rfl
  exact h

/-- C4: a configuration error on the updates-per-second fetch aborts the
iteration before any sleep — the outcome records no sleep duration — and
`run` returns the error; a successful fetch never produces the abort
outcome. -/
theorem config_error_aborts_tick (drv : Option INA226) (bus : Bus) (s : BusState) :
    (∀ e, tick (.error e) drv bus s = .configAbort e ∧
      (tick (.error e) drv bus s).sleepDur = none) ∧
    (∀ f e, tick (.ok f) drv bus s ≠ .configAbort e) := by
  constructor
  · intro e
    exact ⟨rfl, rfl⟩
  · intro f e h
    unfold tick at h
    rcases drv with _ | d
    · simp at h
    · rcases hr : ReadSensorData bus s with ⟨r, s1⟩
      rw [hr] at h
      rcases r with e1 | out <;> simp at h

/-- Witness for C4: a failed fetch aborts the iteration with the error and no
sleep; a successful fetch of 1 update/s does not abort. -/
theorem config_error_aborts_tick_witness :
    tick (.error 5) none okBus startState = .configAbort 5 ∧
    (tick (.error 5) none okBus startState).sleepDur = none ∧
    tick (.ok 1) none okBus startState ≠ .configAbort 5 :=
  ⟨((config_error_aborts_tick none okBus startState).1 5).1,
   ((config_error_aborts_tick none okBus startState).1 5).2,
   (config_error_aborts_tick none okBus startState).2 1 5⟩

/-- C3 (code behavior at the failing input): with a bus that fails every
transaction after a successful initialization, and a constant 1 update/s
configuration, construction succeeds, but the first iteration's sample fails
and the iteration ends in the nil-reading dereference panic of
src/src/main.go line 216 — the second iteration never runs, so a single
failed sample does terminate the polling loop. -/
theorem failed_sample_panics_loop :
    runDriver initOkThenFailBus startState = (some ⟨ina226Address⟩, ⟨2, initLog⟩) ∧
    tickAt (fun _ => .ok 1) (some ⟨ina226Address⟩) initOkThenFailBus ⟨2, initLog⟩ 0 =
      some (.sampleFailPanic (sleepSeconds 1) (.failed .busVoltage 7)
        ⟨3, initLog ++ [⟨[busVoltReg], 0⟩]⟩) ∧
    loopState (fun _ => .ok 1) (some ⟨ina226Address⟩) initOkThenFailBus ⟨2, initLog⟩ 1 =
      none :=
  ⟨rfl, rfl, rfl⟩

/-- C5 (code behavior at the failing input): on a bus whose very first
transaction fails, `NewINA226` fails with the wrapped initialization error
and yields no driver; but `run` only logs that error (src/src/main.go lines
179-182) and still enters the polling loop with the nil driver, whose first
sample dereferences the nil driver — a runtime panic — so the polling
scheduler is run with a failed driver. -/
theorem failed_construction_still_polled :
    NewINA226 failBus startState =
      (.error (.initError 5), ⟨1, [⟨[configReg, 0x41, 0x27], 0⟩]⟩) ∧
    runDriver failBus startState = (none, ⟨1, [⟨[configReg, 0x41, 0x27], 0⟩]⟩) ∧
    tickAt (fun _ => .ok 1) none failBus ⟨1, [⟨[configReg, 0x41, 0x27], 0⟩]⟩ 0 =
      some (.nilDriverPanic (sleepSeconds 1)) :=
  ⟨rfl, rfl, rfl⟩

/-- C9: the updates-per-second value is fetched fresh at every iteration
boundary and the iteration that fetched `f` sleeps exactly `1 / f` seconds:
the sleep duration of the n-th iteration is determined by the value the
configuration source returned at the n-th fetch, so a configuration change
takes effect at the next iteration boundary and never affects an earlier
iteration's sleep. -/
theorem sleep_uses_fresh_frequency (cfg : Nat → Except Nat ℚ) (drv : Option INA226)
    (bus : Bus) (s : BusState) (n : Nat) (sn : BusState) (f : ℚ)
    (hreach : loopState cfg drv bus s n = some sn) (hcfg : cfg n = .ok f) :
    ∃ o, tickAt cfg drv bus s n = some o ∧ o.sleepDur = some (1 / f) := by
  refine ⟨tick (cfg n) drv bus sn, ?_, ?_⟩
  · unfold tickAt
    rw [hreach]
    rfl
  · rw [hcfg]
    rcases drv with _ | d
    · rfl
    · unfold tick
      rcases hr : ReadSensorData bus sn with ⟨r, s1⟩
      rcases r with e1 | out <;> rfl

/-- Witness for C9: under a configuration source that returns 4 updates/s at
the first fetch and 2 updates/s afterwards, iteration 1 sleeps 1/2 second —
the freshly fetched value, not the initially fetched one. -/
theorem sleep_uses_fresh_frequency_witness :
    ∃ o, tickAt retunedCfg (some ⟨ina226Address⟩) (twoByteBus 0x01 0x2C) startState 1 =
        some o ∧ o.sleepDur = some (1 / 2) := by
  exact sleep_uses_fresh_frequency retunedCfg (some ⟨ina226Address⟩) (twoByteBus 0x01 0x2C)
    startState 1
    ⟨6, [⟨[busVoltReg], 0⟩, ⟨[], 2⟩, ⟨[currentReg], 0⟩, ⟨[], 2⟩, ⟨[powerReg], 0⟩, ⟨[], 2⟩]⟩
    2 rfl rfl

/-- C10: the sleep computation of the iteration divides 1 by the fetched
frequency itself, in floating-point (here exact rational) arithmetic with no
integer truncation of the frequency beforehand: for every positive frequency
the divisor is nonzero, the computed sleep is a true inverse of the
frequency and is positive, and for any frequency of at most 10^9 updates/s
the truncated nanosecond duration handed to `time.Sleep` is still positive. -/
theorem sleep_computation_total (f : ℚ) (h : 0 < f) :
    0 < sleepSeconds f ∧ sleepSeconds f * f = 1 ∧
    (f ≤ 1000000000 → 1 ≤ durationNs (sleepSeconds f)) := by
  have hne : f ≠ 0 := ne_of_gt h
  have hpos : 0 < sleepSeconds f := by
    unfold sleepSeconds
    positivity
  refine ⟨hpos, ?_, ?_⟩
  · unfold sleepSeconds
    field_simp
  · intro hle
    unfold durationNs
    rw [if_pos hpos.le]
    rw [Int.le_floor]
    push_cast
    unfold sleepSeconds
    rw [div_mul_eq_mul_div, le_div_iff₀ h]
    linarith

/-- Witness for C10 at the non-integer frequency `f = 0.5` updates/s: the
sleep is the well-defined positive value 2 seconds. -/
theorem sleep_computation_total_witness :
    0 < sleepSeconds (1 / 2) ∧ sleepSeconds (1 / 2) * (1 / 2) = 1 ∧
    1 ≤ durationNs (sleepSeconds (1 / 2)) ∧ sleepSeconds (1 / 2) = 2 := by
  have h := sleep_computation_total (1 / 2) (by norm_num)
  exact ⟨h.1, h.2.1, h.2.2 (by norm_num), by norm_num [sleepSeconds]⟩

end Energy
